import Mathlib

/-!
Verification of the candidate-selection core of GASpy_feedback
(`create_parameters.py`, with `feedback.py` as a caller).

The embedding models `_make_parameters_list` and `_trim` from
`create_parameters.py`.  Candidate documents are an abstract type `α`;
predicted values are exact rationals (`ℚ`); the Python-2 integer
division `max_predictions / 2` is `Nat` division.  Fallible code
returns `Except Err`.  The two sources of randomness — `random.shuffle`
in the `random` branch and the draw inside `np.random.choice` in the
`gaussian` branch — are abstracted by injected data: the shuffled list,
and the permutation of candidate indices that the generator would
produce (theorems hypothesise it to be a permutation of `range n`,
which is `np.random.choice`'s contract for `replace=False`).
-/

/- Batteries marks the rational operations `@[irreducible]`; restore the
default reducibility in this file so that concrete runs of the embedded
program evaluate by `decide`. -/
attribute [local semireducible] Rat.add Rat.sub Rat.mul Rat.inv

/-- The error outcomes of `_make_parameters_list` / `_trim`:
`missingValues` for the two `raise Exception(... without specifying values)`,
`invalidPolicy` for `raise Exception('User did not provide a valid prioritization')`,
`degenerateDistribution` for `np.random.choice` rejecting non-finite
probabilities (scipy's `norm(loc, scale).pdf` returns nan when `scale <= 0`),
`insufficientCandidates` for `np.random.choice` rejecting
`size > population` with `replace=False`, and
`unboundLocal` for the `UnboundLocalError` raised by `_trim` when
`max_predictions == 0` (its `pass` branch never assigns `__list`). -/
inductive Err where
  | missingValues
  | invalidPolicy
  | degenerateDistribution
  | insufficientCandidates
  | unboundLocal
deriving DecidableEq

/-- Python's `max(values)` (0 as junk value on the empty list, on which
Python would raise). -/
def maxQ : List ℚ → ℚ
  | [] => 0
  | v :: vs => vs.foldl max v

/-- Python's `min(values)` (0 as junk value on the empty list). -/
def minQ : List ℚ → ℚ
  | [] => 0
  | v :: vs => vs.foldl min v

/-- Lines 220-222 and 247-250 of `create_parameters.py`:
`if not target: target = (max(values)-min(values))/2.`.
Python's falsy test on a float means an explicit `target` of `0.0` is
replaced by the fallback exactly like an absent (`None`) target. -/
def effectiveTarget (values : List ℚ) (target? : Option ℚ) : ℚ :=
  match target? with
  | none => (maxQ values - minQ values) / 2
  | some t => if t = 0 then (maxQ values - minQ values) / 2 else t

/-- The sort key of line 227: `abs(values[i]-target)`.  Indices fed to it
are always below `values.length`, so the `getD` default is unreachable. -/
def sortKey (values : List ℚ) (target : ℚ) (i : Nat) : ℚ :=
  |values.getD i 0 - target|

/-- Line 227: `sort_inds = sorted(range(len(values)), key=lambda i: abs(values[i]-target))`.
Python's `sorted` is a stable comparison sort; `List.insertionSort` with the
`<=`-comparator is also stable and sorted, and a stable sort's output is
determined by the key order, so the two agree. -/
def sortInds (values : List ℚ) (target : ℚ) : List Nat :=
  List.insertionSort
    (fun i j => sortKey values target i ≤ sortKey values target j)
    (List.range values.length)

/-- Line 228: `docs = [docs[i] for i in sort_inds]` (and line 260's indexing
of the sampled positions).  Faithful whenever every index is in range, which
holds here because the index lists are permutations of `range` of the length. -/
def reindex (docs : List α) (inds : List Nat) : List α :=
  inds.filterMap (fun i => docs.get? i)

/-- `_trim` (lines 303-319).  When `max_predictions == 0` the code's comment
says "Treat max_predictions == 0 as no limit", but that branch is `pass`:
`__list` is never assigned and the `return __list` raises
`UnboundLocalError`.  Otherwise the list is cut to its first
`int(max_predictions/2)` elements. -/
def _trim (l : List α) (maxPredictions : Nat) : Except Err (List α) :=
  if maxPredictions = 0 then Except.error Err.unboundLocal
  else Except.ok (l.take (maxPredictions / 2))

/-- `scipy.stats.norm(loc, scale).pdf(x)`: scipy returns nan for an invalid
`scale <= 0` (modelled as `none`).  For `scale > 0` the Gaussian density is a
positive finite real; its exact magnitude reaches this model only through the
weighted random draw, which the embedding abstracts by an injected
permutation, so it is represented by a positive rational surrogate that is
likewise strictly decreasing in `|x - loc|` and scale-normalised. -/
def normPdf (loc scale x : ℚ) : Option ℚ :=
  if scale ≤ 0 then none
  else some (1 / (scale * (1 + (x - loc) ^ 2 / (2 * scale ^ 2))))

/-- `np.random.choice(docs, size=k, replace=False, p=p)` over a population of
size `n`: numpy validates the probability vector first (a non-finite entry is
rejected), then `replace=False` requires `size <= population`, then `size`
distinct positions are drawn.  The draw is abstracted by `randPerm`, the
permutation of `range n` the generator would produce; the result is its first
`k` entries. -/
def npChoiceNoReplace (n k : Nat) (weights : List (Option ℚ))
    (randPerm : List Nat) : Except Err (List Nat) :=
  if weights.any (fun w => w.isNone) then Except.error Err.degenerateDistribution
  else if n < k then Except.error Err.insufficientCandidates
  else Except.ok (randPerm.take k)

/-- Lines 247-260, the body of the `gaussian` branch after the `values`
check: default the target, build `norm(target, (max(values)-min(values))/n_sigmas)`,
evaluate its pdf on every value, normalise, and draw
`size = max_predictions/2` candidates without replacement. -/
def gaussianChoose (docs : List α) (values : List ℚ) (target? : Option ℚ)
    (nSigmas : ℚ) (maxPredictions : Nat) (randPerm : List Nat) :
    Except Err (List α) :=
  match npChoiceNoReplace docs.length (maxPredictions / 2)
      (values.map (normPdf (effectiveTarget values target?)
        ((maxQ values - minQ values) / nSigmas))) randPerm with
  | Except.error e => Except.error e
  | Except.ok idxs => Except.ok (reindex docs idxs)

/-- Lines 266-299: every surviving doc is expanded, in order, into the two
parameter records `for top in [True, False]` — the (candidate, side) pairs,
with `true` standing for `top`.  The parameter-dictionary plumbing around the
pair (`defaults.*_parameters`) is external glue and is not modelled. -/
def expandSides (docs : List α) : List (α × Bool) :=
  docs.flatMap (fun d => [(d, true), (d, false)])

/-- The selection phase of `_make_parameters_list` (lines 205-263): the
short-circuit followed by the `targeted` / `random` / `gaussian` / invalid
dispatch on the prioritization string.  `shuffled` stands for the result of
`random.shuffle(docs)` in the `random` branch; `randPerm` is the index
permutation abstracting `np.random.choice`'s draw in the `gaussian` branch.
Python's `if not values` catches both `None` and the empty list. -/
def selectDocs (docs : List α) (prioritization : String)
    (maxPredictions : Nat) (target? : Option ℚ) (values? : Option (List ℚ))
    (nSigmas : ℚ) (shuffled : List α) (randPerm : List Nat) :
    Except Err (List α) :=
  if docs.length ≤ maxPredictions / 2 then
    Except.ok docs
  else if prioritization = "targeted" then
    match values? with
    | none => Except.error Err.missingValues
    | some values =>
      if values.isEmpty then Except.error Err.missingValues
      else
        _trim (reindex docs (sortInds values (effectiveTarget values target?)))
          maxPredictions
  else if prioritization = "random" then
    _trim shuffled maxPredictions
  else if prioritization = "gaussian" then
    match values? with
    | none => Except.error Err.missingValues
    | some values =>
      if values.isEmpty then Except.error Err.missingValues
      else gaussianChoose docs values target? nSigmas maxPredictions randPerm
  else Except.error Err.invalidPolicy

/-- The whole of `_make_parameters_list`: the selection phase above followed
by the output loop of lines 266-299, which expands every surviving doc into
its top and bottom parameter records. -/
def _make_parameters_list (docs : List α) (prioritization : String)
    (maxPredictions : Nat) (target? : Option ℚ) (values? : Option (List ℚ))
    (nSigmas : ℚ) (shuffled : List α) (randPerm : List Nat) :
    Except Err (List (α × Bool)) :=
  match selectDocs docs prioritization maxPredictions target? values? nSigmas
      shuffled randPerm with
  | Except.error e => Except.error e
  | Except.ok ds => Except.ok (expandSides ds)

/-- Modelled from the spec: the `anything` (PassThrough) prioritization is
implemented in `gas_predict.py`, which is absent from the sources (only its
caller `feedback.py`, line 139 `gas_predict.anything(...)`, and the PRIORITY
documentation listing `anything` are present).  Per the spec, "PassThrough:
returns candidates in their original order unchanged". -/
def anythingPrioritize (docs : List α) : List α :=
  docs

/-- Inserting an index that is smaller than every index already present into
a list that is non-decreasing in the key, with ties in increasing index
order, preserves that shape. -/
theorem pairwise_key_orderedInsert (key : Nat → ℚ) (i : Nat) :
    ∀ l : List Nat,
      l.Pairwise (fun a b => key a ≤ key b ∧ (key a = key b → a < b)) →
      (∀ j ∈ l, i < j) →
      (List.orderedInsert (fun a b => key a ≤ key b) i l).Pairwise
        (fun a b => key a ≤ key b ∧ (key a = key b → a < b)) := by
  intro l
  induction l with
  | nil =>
    intro _ _
    simp [List.orderedInsert]
  | cons j js ih =>
    intro hl hlt
    rw [List.orderedInsert]
    by_cases h : key i ≤ key j
    · rw [if_pos h]
      refine List.Pairwise.cons ?_ hl
      intro x hx
      rcases List.mem_cons.mp hx with rfl | hx
      · exact ⟨h, fun _ => hlt x (List.mem_cons_self _ _)⟩
      · have hjx := (List.pairwise_cons.mp hl).1 x hx
        exact ⟨le_trans h hjx.1, fun _ => hlt x (List.mem_cons_of_mem _ hx)⟩
    · rw [if_neg h]
      have hji : key j < key i := not_le.mp h
      refine List.Pairwise.cons ?_
        (ih (List.pairwise_cons.mp hl).2
          (fun x hx => hlt x (List.mem_cons_of_mem _ hx)))
      intro x hx
      rcases (List.mem_orderedInsert _).mp hx with rfl | hx
      · exact ⟨le_of_lt hji, fun he => absurd he (ne_of_lt hji)⟩
      · exact (List.pairwise_cons.mp hl).1 x hx

/-- Insertion sort with the weak-inequality comparator is stable: run on a
strictly increasing list of indices, its output is non-decreasing in the key
and breaks key ties by the original index order. -/
theorem pairwise_key_insertionSort (key : Nat → ℚ) :
    ∀ l : List Nat, l.Pairwise (· < ·) →
      (List.insertionSort (fun a b => key a ≤ key b) l).Pairwise
        (fun a b => key a ≤ key b ∧ (key a = key b → a < b)) := by
  intro l
  induction l with
  | nil =>
    intro _
    simp
  | cons i is ih =>
    intro hl
    rw [List.insertionSort]
    refine pairwise_key_orderedInsert key i _
      (ih (List.pairwise_cons.mp hl).2) ?_
    intro j hj
    exact (List.pairwise_cons.mp hl).1 j ((List.mem_insertionSort _).mp hj)

/-- C3: for every non-empty values list and every target, the Targeted policy
order `sortInds` is non-decreasing in the distance `|value - target|`,
candidates at equal distance keep their original relative order (the sort is
stable), and the order is a permutation of all candidate positions. -/
theorem targeted_order_nondecreasing_stable (values : List ℚ) (t : ℚ)
    (h : values ≠ []) :
    (sortInds values t).Pairwise (fun a b =>
        |values.getD a 0 - t| ≤ |values.getD b 0 - t| ∧
        (|values.getD a 0 - t| = |values.getD b 0 - t| → a < b)) ∧
    (sortInds values t).Perm (List.range values.length) := by
  exact ⟨pairwise_key_insertionSort (sortKey values t) _
      (List.pairwise_lt_range _),
    List.perm_insertionSort _ _⟩

/-- Witness for C3 on the concrete run `values = [10, 20, 30]`,
`target = 25`. -/
theorem targeted_order_nondecreasing_stable_witness :
    (sortInds [10, 20, 30] 25).Pairwise (fun a b =>
        |([10, 20, 30] : List ℚ).getD a 0 - 25| ≤
          |([10, 20, 30] : List ℚ).getD b 0 - 25| ∧
        (|([10, 20, 30] : List ℚ).getD a 0 - 25| =
            |([10, 20, 30] : List ℚ).getD b 0 - 25| → a < b)) ∧
    (sortInds [10, 20, 30] 25).Perm (List.range ([10, 20, 30] : List ℚ).length) :=
  targeted_order_nondecreasing_stable [10, 20, 30] 25 (by decide)

/-- C1: whenever `len(docs) <= max_predictions / 2` (Python-2 floor
division), the whole call short-circuits: every candidate is kept unchanged
and in order (each then expanded into its top/bottom pair), no scoring
policy runs, and no error is raised — for every policy string and even when
`values` is absent. -/
theorem short_circuit_keeps_all {α : Type} (docs : List α)
    (prioritization : String) (maxPredictions : Nat) (target? : Option ℚ)
    (values? : Option (List ℚ)) (nSigmas : ℚ) (shuffled : List α)
    (randPerm : List Nat) (h : docs.length ≤ maxPredictions / 2) :
    _make_parameters_list docs prioritization maxPredictions target? values?
        nSigmas shuffled randPerm
      = Except.ok (expandSides docs) := by
  unfold _make_parameters_list selectDocs
  rw [if_pos h]

/-- Witness for C1: the spec's end-to-end example 2 — three candidates,
`max_selected = 10`, Targeted policy, `values` absent: the short-circuit
triggers (3 <= 5) and all three candidates come back (with their top/bottom
duplication), without error. -/
theorem short_circuit_keeps_all_witness :
    _make_parameters_list ["a", "b", "c"] "targeted" 10 none none 6 [] []
      = Except.ok (expandSides ["a", "b", "c"]) :=
  short_circuit_keeps_all ["a", "b", "c"] "targeted" 10 none none 6 [] []
    (by decide)

/-- C2: the spec's end-to-end example 1 — candidates `[A, B, C, D, E]`,
`values = [10, 20, 30, 40, 50]`, `target = 30`, `max_selected = 4`, Targeted
policy: the sort order is `[C, B, D, A, E]` (indices `[2, 1, 3, 0, 4]`), the
trim keeps the prefix `[C, B]` (cap `4 / 2 = 2`), and the final output is
`[(C, top), (C, bottom), (B, top), (B, bottom)]` in exactly that order
(`true` = top). -/
theorem targeted_example_run :
    sortInds [10, 20, 30, 40, 50] 30 = [2, 1, 3, 0, 4] ∧
    selectDocs ["A", "B", "C", "D", "E"] "targeted" 4 (some 30)
        (some [10, 20, 30, 40, 50]) 6 [] [] = Except.ok ["C", "B"] ∧
    _make_parameters_list ["A", "B", "C", "D", "E"] "targeted" 4 (some 30)
        (some [10, 20, 30, 40, 50]) 6 [] []
      = Except.ok [("C", true), ("C", false), ("B", true), ("B", false)] := by
  refine ⟨by decide, ?_, ?_⟩ <;> rfl

/-- C7: the claim says `max_selected == 0` is treated as unbounded, and the
code's own comment in `_trim` agrees ("Treat max_predictions == 0 as no
limit") — but that branch is `pass`: `__list` is never assigned, so
`return __list` raises `UnboundLocalError` instead of returning the full
list.  The code contradicts its own documentation; evaluating it at a
failing input: one candidate, `random` prioritization,
`max_predictions = 0`. -/
theorem trim_zero_raises :
    _trim ([0] : List Nat) 0 = Except.error Err.unboundLocal ∧
    _make_parameters_list ([0] : List Nat) "random" 0 none none 6 [0] []
      = Except.error Err.unboundLocal := by
  exact ⟨rfl, rfl⟩

/-- The left fold of `max` over a list is one of the elements folded
(Python's `max(values)` returns an element of the list). -/
theorem foldl_max_mem : ∀ (vs : List ℚ) (a : ℚ), vs.foldl max a ∈ a :: vs := by
  intro vs
  induction vs with
  | nil =>
    intro a
    simp
  | cons v vs ih =>
    intro a
    rw [List.foldl_cons]
    rcases List.mem_cons.mp (ih (max a v)) with h | h
    · rw [h]
      rcases max_choice a v with h2 | h2 <;> rw [h2] <;> simp
    · simp [h]

/-- Every value folded into a left fold of `max` is bounded by the fold. -/
theorem le_foldl_max : ∀ (vs : List ℚ) (a x : ℚ), x ∈ a :: vs → x ≤ vs.foldl max a := by
  intro vs
  induction vs with
  | nil =>
    intro a x hx
    rw [List.mem_singleton] at hx
    simp [hx]
  | cons v vs ih =>
    intro a x hx
    rw [List.foldl_cons]
    rcases List.mem_cons.mp hx with rfl | hx
    · exact le_trans (le_max_left x v)
        (ih (max x v) _ (List.mem_cons_self _ _))
    · rcases List.mem_cons.mp hx with rfl | hx
      · exact le_trans (le_max_right a x)
          (ih (max a x) _ (List.mem_cons_self _ _))
      · exact ih _ _ (List.mem_cons_of_mem _ hx)

/-- The left fold of `min` over a list is one of the elements folded. -/
theorem foldl_min_mem : ∀ (vs : List ℚ) (a : ℚ), vs.foldl min a ∈ a :: vs := by
  intro vs
  induction vs with
  | nil =>
    intro a
    simp
  | cons v vs ih =>
    intro a
    rw [List.foldl_cons]
    rcases List.mem_cons.mp (ih (min a v)) with h | h
    · rw [h]
      rcases min_choice a v with h2 | h2 <;> rw [h2] <;> simp
    · simp [h]

/-- The left fold of `min` is a lower bound of every value folded in. -/
theorem foldl_min_le : ∀ (vs : List ℚ) (a x : ℚ), x ∈ a :: vs → vs.foldl min a ≤ x := by
  intro vs
  induction vs with
  | nil =>
    intro a x hx
    rw [List.mem_singleton] at hx
    simp [hx]
  | cons v vs ih =>
    intro a x hx
    rw [List.foldl_cons]
    rcases List.mem_cons.mp hx with rfl | hx
    · exact le_trans (ih (min x v) _ (List.mem_cons_self _ _))
        (min_le_left x v)
    · rcases List.mem_cons.mp hx with rfl | hx
      · exact le_trans (ih (min a x) _ (List.mem_cons_self _ _))
          (min_le_right a x)
      · exact ih _ _ (List.mem_cons_of_mem _ hx)

/-- `maxQ` of a non-empty list is its greatest element. -/
theorem maxQ_spec (values : List ℚ) (h : values ≠ []) :
    maxQ values ∈ values ∧ ∀ v ∈ values, v ≤ maxQ values := by
  obtain ⟨v, vs, rfl⟩ := List.exists_cons_of_ne_nil h
  exact ⟨foldl_max_mem vs v, fun x hx => le_foldl_max vs v x hx⟩

/-- `minQ` of a non-empty list is its least element. -/
theorem minQ_spec (values : List ℚ) (h : values ≠ []) :
    minQ values ∈ values ∧ ∀ v ∈ values, minQ values ≤ v := by
  obtain ⟨v, vs, rfl⟩ := List.exists_cons_of_ne_nil h
  exact ⟨foldl_min_mem vs v, fun x hx => foldl_min_le vs v x hx⟩

/-- C8: when the target is unspecified, the fallback target (used by both
the Targeted and the GaussianWeighted branch, lines 220-222 and 247-250) is
`(max(values) - min(values)) / 2` — the half-range exactly as written, where
`maxQ`/`minQ` really are the greatest/least value of the list; it is not the
midpoint `min + (max - min) / 2`, as the concrete list `[10, 20]` shows
(fallback `5`, midpoint `15`). -/
theorem default_target_is_half_range (values : List ℚ) (h : values ≠ []) :
    effectiveTarget values none = (maxQ values - minQ values) / 2 ∧
    maxQ values ∈ values ∧ (∀ v ∈ values, v ≤ maxQ values) ∧
    minQ values ∈ values ∧ (∀ v ∈ values, minQ values ≤ v) ∧
    effectiveTarget [10, 20] none
      ≠ minQ [10, 20] + (maxQ [10, 20] - minQ [10, 20]) / 2 := by
  refine ⟨rfl, (maxQ_spec values h).1, (maxQ_spec values h).2,
    (minQ_spec values h).1, (minQ_spec values h).2, ?_⟩
  decide

/-- Witness for C8 at `values = [10, 20]`. -/
theorem default_target_is_half_range_witness :
    effectiveTarget [10, 20] none = (maxQ [10, 20] - minQ [10, 20]) / 2 ∧
    maxQ [10, 20] ∈ ([10, 20] : List ℚ) ∧
    (∀ v ∈ ([10, 20] : List ℚ), v ≤ maxQ [10, 20]) ∧
    minQ [10, 20] ∈ ([10, 20] : List ℚ) ∧
    (∀ v ∈ ([10, 20] : List ℚ), minQ [10, 20] ≤ v) ∧
    effectiveTarget [10, 20] none
      ≠ minQ [10, 20] + (maxQ [10, 20] - minQ [10, 20]) / 2 :=
  default_target_is_half_range [10, 20] (by decide)

/-- C10: an explicitly supplied target of `0.0` is treated exactly like an
absent target by the falsy `if not target` check: under both the `targeted`
and the `gaussian` prioritization the whole selection behaves identically,
so a caller cannot actually target the value zero. -/
theorem zero_target_like_absent {α : Type} (docs : List α) (values : List ℚ)
    (maxPredictions : Nat) (nSigmas : ℚ) (shuffled : List α)
    (randPerm : List Nat) :
    effectiveTarget values (some 0) = effectiveTarget values none ∧
    _make_parameters_list docs "targeted" maxPredictions (some 0)
        (some values) nSigmas shuffled randPerm
      = _make_parameters_list docs "targeted" maxPredictions none
          (some values) nSigmas shuffled randPerm ∧
    _make_parameters_list docs "gaussian" maxPredictions (some 0)
        (some values) nSigmas shuffled randPerm
      = _make_parameters_list docs "gaussian" maxPredictions none
          (some values) nSigmas shuffled randPerm := by
  have he : effectiveTarget values (some 0) = effectiveTarget values none := by
    simp [effectiveTarget]
  refine ⟨he, ?_, ?_⟩ <;>
    simp only [_make_parameters_list, selectDocs, gaussianChoose, he]

/-- C9: the `anything` (PassThrough) prioritization — spec-modelled, since
`gas_predict.py` is not among the sources — returns the candidates in their
original order unchanged, while `_make_parameters_list` fails with the
invalid-prioritization error for every policy string outside the recognized
ones whenever the short-circuit does not apply. -/
theorem passthrough_and_invalid_policy {α : Type} (docs : List α)
    (s : String) (maxPredictions : Nat) (target? : Option ℚ)
    (values? : Option (List ℚ)) (nSigmas : ℚ) (shuffled : List α)
    (randPerm : List Nat) (hsc : maxPredictions / 2 < docs.length)
    (h1 : s ≠ "targeted") (h2 : s ≠ "random") (h3 : s ≠ "gaussian") :
    anythingPrioritize docs = docs ∧
    _make_parameters_list docs s maxPredictions target? values? nSigmas
        shuffled randPerm
      = Except.error Err.invalidPolicy := by
  refine ⟨rfl, ?_⟩
  unfold _make_parameters_list selectDocs
  rw [if_neg (not_le.mpr hsc), if_neg h1, if_neg h2, if_neg h3]

/-- Witness for C9: one candidate, `max_selected = 1` (no short-circuit),
and the unrecognized policy string "bogus". -/
theorem passthrough_and_invalid_policy_witness :
    anythingPrioritize ([0] : List Nat) = [0] ∧
    _make_parameters_list ([0] : List Nat) "bogus" 1 none none 6 [] []
      = Except.error Err.invalidPolicy :=
  passthrough_and_invalid_policy [0] "bogus" 1 none none 6 [] []
    (by decide) (by decide) (by decide) (by decide)

/-- C5: with all values equal the computed standard deviation
`(max(values) - min(values)) / spread_divisor` is zero, the pdf weights are
all non-finite, and the GaussianWeighted branch fails with the
degenerate-distribution error rather than succeeding; likewise the sampling
step fails whenever any probability weight is non-finite. -/
theorem gaussian_all_equal_fails {α : Type} (docs : List α) (values : List ℚ)
    (c : ℚ) (target? : Option ℚ) (nSigmas : ℚ) (maxPredictions : Nat)
    (randPerm : List Nat) (hne : values ≠ []) (hc : ∀ v ∈ values, v = c) :
    gaussianChoose docs values target? nSigmas maxPredictions randPerm
      = Except.error Err.degenerateDistribution ∧
    ∀ (n k : Nat) (weights : List (Option ℚ)) (rp : List Nat),
      (∃ w ∈ weights, w = none) →
      npChoiceNoReplace n k weights rp
        = Except.error Err.degenerateDistribution := by
  constructor
  · obtain ⟨v, vs, rfl⟩ := List.exists_cons_of_ne_nil hne
    have hmax : maxQ (v :: vs) = c := hc _ (foldl_max_mem vs v)
    have hmin : minQ (v :: vs) = c := hc _ (foldl_min_mem vs v)
    unfold gaussianChoose
    rw [hmax, hmin, sub_self, zero_div]
    simp [normPdf, npChoiceNoReplace]
  · intro n k weights rp hw
    obtain ⟨w, hwmem, rfl⟩ := hw
    unfold npChoiceNoReplace
    rw [if_pos (List.any_eq_true.mpr ⟨none, hwmem, rfl⟩)]

/-- Witness for C5: three candidates with the all-equal values `[1, 1, 1]`
(and, for the second conjunct, any weight list containing a non-finite
entry). -/
theorem gaussian_all_equal_fails_witness :
    gaussianChoose ([5, 6, 7] : List Nat) [1, 1, 1] none 6 10 [0, 1, 2]
      = Except.error Err.degenerateDistribution ∧
    ∀ (n k : Nat) (weights : List (Option ℚ)) (rp : List Nat),
      (∃ w ∈ weights, w = none) →
      npChoiceNoReplace n k weights rp
        = Except.error Err.degenerateDistribution :=
  gaussian_all_equal_fails [5, 6, 7] [1, 1, 1] 1 none 6 10 [0, 1, 2]
    (by decide) (by decide)

/-- C6: with a non-degenerate spread, the GaussianWeighted branch draws its
sample without replacement — the drawn index list is duplicate-free (and so
is the returned candidate list when the candidates are distinct) — of size
exactly the requested `cap = max_predictions / 2`; and when the requested
sample size exceeds the candidate count, it fails with the
insufficient-candidates error. -/
theorem gaussian_sample_nodup_size {α : Type} (docs : List α)
    (values : List ℚ) (target? : Option ℚ) (nSigmas : ℚ)
    (maxPredictions : Nat) (randPerm : List Nat)
    (hperm : randPerm.Perm (List.range docs.length))
    (hspread : minQ values < maxQ values) (hns : 0 < nSigmas) :
    (maxPredictions / 2 ≤ docs.length →
      gaussianChoose docs values target? nSigmas maxPredictions randPerm
        = Except.ok (reindex docs (randPerm.take (maxPredictions / 2))) ∧
      (randPerm.take (maxPredictions / 2)).Nodup ∧
      (randPerm.take (maxPredictions / 2)).length = maxPredictions / 2) ∧
    (docs.length < maxPredictions / 2 →
      gaussianChoose docs values target? nSigmas maxPredictions randPerm
        = Except.error Err.insufficientCandidates) := by
  have hsigma : 0 < (maxQ values - minQ values) / nSigmas :=
    div_pos (sub_pos.mpr hspread) hns
  have hwf : (values.map (normPdf (effectiveTarget values target?)
      ((maxQ values - minQ values) / nSigmas))).any (fun w => w.isNone)
        = false := by
    rw [List.any_eq_false]
    intro w hw
    obtain ⟨x, _, rfl⟩ := List.mem_map.mp hw
    simp [normPdf, not_le.mpr hsigma]
  have hlen : randPerm.length = docs.length :=
    hperm.length_eq.trans (List.length_range _)
  constructor
  · intro hk
    refine ⟨?_, ?_, ?_⟩
    · unfold gaussianChoose npChoiceNoReplace
      rw [hwf, if_neg (not_lt.mpr hk)]
      rfl
    · exact ((List.take_sublist _ _).nodup
        (hperm.nodup_iff.mpr (List.nodup_range _)))
    · rw [List.length_take, hlen]
      exact min_eq_left hk
  · intro hk
    unfold gaussianChoose npChoiceNoReplace
    rw [hwf, if_pos hk]
    rfl

/-- Witness for C6: three distinct candidates, values `[1, 2, 3]`,
`max_selected = 4` (cap 2), and the generator permutation `[2, 0, 1]`. -/
theorem gaussian_sample_nodup_size_witness :
    ((4 : Nat) / 2 ≤ ([10, 20, 30] : List Nat).length →
      gaussianChoose ([10, 20, 30] : List Nat) [1, 2, 3] none 6 4 [2, 0, 1]
        = Except.ok (reindex ([10, 20, 30] : List Nat) (([2, 0, 1] : List Nat).take (4 / 2))) ∧
      (([2, 0, 1] : List Nat).take (4 / 2)).Nodup ∧
      (([2, 0, 1] : List Nat).take (4 / 2)).length = 4 / 2) ∧
    (([10, 20, 30] : List Nat).length < 4 / 2 →
      gaussianChoose ([10, 20, 30] : List Nat) [1, 2, 3] none 6 4 [2, 0, 1]
        = Except.error Err.insufficientCandidates) :=
  gaussian_sample_nodup_size [10, 20, 30] [1, 2, 3] none 6 4 [2, 0, 1]
    (by decide) (by decide) (by decide)

/-- The top/bottom expansion doubles the length of any doc list. -/
theorem length_expandSides {α : Type} (ds : List α) :
    (expandSides ds).length = 2 * ds.length := by
  induction ds with
  | nil => rfl
  | cons d ds ih =>
    simp only [expandSides, List.flatMap_cons, List.length_append,
      List.length_cons, List.length_nil] at ih ⊢
    omega

/-- Counterexample to C4: on candidates `[0..4]`, values `[10..50]`,
`target = 30`, `max_selected = 4`, the Gaussian path draws exactly
`cap = 4/2 = 2` candidates (`[0, 1]` under the identity generator
permutation) — and the call still emits four `(candidate, side)` pairs, the
top/bottom doubling the claim says this path skips: the output length is
twice the drawn sample's, not equal to it. -/
theorem gaussian_not_doubled_counterexample :
    gaussianChoose ([0, 1, 2, 3, 4] : List Nat) [10, 20, 30, 40, 50]
        (some 30) 6 4 [0, 1, 2, 3, 4] = Except.ok [0, 1] ∧
    _make_parameters_list ([0, 1, 2, 3, 4] : List Nat) "gaussian" 4
        (some 30) (some [10, 20, 30, 40, 50]) 6 [] [0, 1, 2, 3, 4]
      = Except.ok [(0, true), (0, false), (1, true), (1, false)] ∧
    [(0, true), (0, false), (1, true), (1, false)].length
      ≠ [0, 1].length := by
  exact ⟨rfl, rfl, by decide⟩

/-- C4 as amended: the Gaussian direct-sample path draws exactly
`cap = max_selected / 2` candidates, but — like the reordering paths — each
drawn candidate is then expanded into its two (candidate, side) pairs, so
every non-short-circuit path doubles and the final lengths agree at
`2 * cap`. -/
theorem gaussian_path_also_doubles {α : Type} (docs : List α)
    (values : List ℚ) (target? : Option ℚ) (nSigmas : ℚ)
    (maxPredictions : Nat) (shuffled : List α) (randPerm : List Nat)
    (chosen : List α) (hsc : maxPredictions / 2 < docs.length)
    (hne : values ≠ [])
    (hok : gaussianChoose docs values target? nSigmas maxPredictions randPerm
      = Except.ok chosen) :
    _make_parameters_list docs "gaussian" maxPredictions target?
        (some values) nSigmas shuffled randPerm
      = Except.ok (expandSides chosen) ∧
    (expandSides chosen).length = 2 * chosen.length := by
  constructor
  · unfold _make_parameters_list selectDocs
    rw [if_neg (not_le.mpr hsc),
      if_neg (by decide : ¬(("gaussian" : String) = "targeted")),
      if_neg (by decide : ¬(("gaussian" : String) = "random")),
      if_pos rfl]
    simp [List.isEmpty_iff, hne, hok]
  · exact length_expandSides chosen

/-- Witness for the amended C4, instantiating the concrete Gaussian run of
the counterexample: the drawn sample is `[0, 1]` and the emitted list has
length `2 * 2 = 4`. -/
theorem gaussian_path_also_doubles_witness :
    _make_parameters_list ([0, 1, 2, 3, 4] : List Nat) "gaussian" 4
        (some 30) (some [10, 20, 30, 40, 50]) 6 [] [0, 1, 2, 3, 4]
      = Except.ok (expandSides [0, 1]) ∧
    (expandSides ([0, 1] : List Nat)).length = 2 * ([0, 1] : List Nat).length :=
  gaussian_path_also_doubles [0, 1, 2, 3, 4] [10, 20, 30, 40, 50] (some 30)
    6 4 [] [0, 1, 2, 3, 4] [0, 1] (by decide) (by decide) (by rfl)
